import Mathlib

/-!
Shallow embedding of the constraint-validation module of `asic_cryptosec`
(`src/constraints/constraints.c`, `src/constraints/constraints.h`).

Every public function of the module is modelled as a Lean function producing
an `Outcome`: the list of observable events it performs (log lines, entry
into the Violation Reporter, entry into the Escalation Handler) together with
its return value. A return value of `none` models a call that never returns
(the Escalation Handler's `while (true)` loop). A small state-machine layer
(`SysState`, `step`) on top of the per-call semantics expresses statelessness
and the one-way Operational → Halted transition.
-/

namespace Constraints

/-- `#define SYS_CLK_MIN_HZ (80000000UL)` (constraints.c line 18). -/
def SYS_CLK_MIN_HZ : Nat := 80000000

/-- `#define SYS_CLK_MAX_HZ (200000000UL)` (constraints.c line 19). -/
def SYS_CLK_MAX_HZ : Nat := 200000000

/-- `#define RAM_START_ADDR (0x20000000UL)` (constraints.c line 21). -/
def RAM_START_ADDR : Nat := 0x20000000

/-- `#define RAM_SIZE_BYTES (131072UL)` (constraints.c line 22). -/
def RAM_SIZE_BYTES : Nat := 131072

/-- `#define RAM_END_ADDR (RAM_START_ADDR + RAM_SIZE_BYTES - 1)` (line 23). -/
def RAM_END_ADDR : Nat := RAM_START_ADDR + RAM_SIZE_BYTES - 1

/-- `#define CONSTRAINT_ID_SYS_CLK_RANGE 0x01` (constraints.h line 74). -/
def CONSTRAINT_ID_SYS_CLK_RANGE : Nat := 0x01

/-- `#define CONSTRAINT_ID_RAM_ACCESS_OOB 0x02` (constraints.h line 75). -/
def CONSTRAINT_ID_RAM_ACCESS_OOB : Nat := 0x02

/-- `#define CONSTRAINT_ID_SENSOR_TIMEOUT 0x03` (constraints.h line 76). -/
def CONSTRAINT_ID_SENSOR_TIMEOUT : Nat := 0x03

/-- `#define CONSTRAINT_ID_COMM_BUFFER_FULL 0x04` (constraints.h line 77). -/
def CONSTRAINT_ID_COMM_BUFFER_FULL : Nat := 0x04

/-- Uppercase hexadecimal digit for `n < 16`, as produced by printf `%X`. -/
def hexDigit (n : Nat) : Char :=
  if n < 10 then Char.ofNat (48 + n) else Char.ofNat (55 + n)

/-- Hexadecimal digits of `n`, most significant first; `[]` for `0`.
`fuel` bounds the recursion (16 digits cover any value below `16^16`,
far beyond `uint32_t`). -/
def hexDigits (fuel : Nat) (n : Nat) : List Char :=
  match fuel with
  | 0 => []
  | fuel + 1 => if n = 0 then [] else hexDigits fuel (n / 16) ++ [hexDigit (n % 16)]

/-- printf `%0<width>lX`: uppercase hexadecimal, zero-padded to `width`. -/
def fmtHex (width : Nat) (n : Nat) : String :=
  let ds := hexDigits 16 n
  String.mk (List.replicate (width - ds.length) '0' ++ ds)

/-- `snprintf(buf, size, ...)`: the formatted string truncated to at most
`size - 1` characters. -/
def snprintf (size : Nat) (s : String) : String :=
  String.mk (s.data.take (size - 1))

/-- Observable events of the module: a `LogHandler(level, msg)` call, entry
into `ConstraintsManager_ReportViolation` with a constraint id, and entry
into `ErrorHandler` (the escalation path) with a violation id. -/
inductive Event where
  | log (level : String) (msg : String)
  | report (id : Nat)
  | escalate (id : Nat)
deriving DecidableEq

/-- Result of a call: the events it performs, in order, and its return value;
`ret = none` models a call that never returns. -/
structure Outcome (α : Type) where
  ret : Option α
  events : List Event
deriving DecidableEq

/-- Sequencing of calls: if the first never returns, the second is not
reached; otherwise events accumulate in order. -/
def Outcome.bind {α β : Type} (x : Outcome α) (f : α → Outcome β) : Outcome β :=
  match x.ret with
  | none => { ret := none, events := x.events }
  | some a =>
    let y := f a
    { ret := y.ret, events := x.events ++ y.events }

/-- `LogHandler` (constraints.c lines 37-40): emits one log line and
returns. -/
def LogHandler (level : String) (message : String) : Outcome Unit :=
  { ret := some (), events := [.log level message] }

/-- `ErrorHandler` (constraints.c lines 55-68): logs at FATAL severity, then
enters `while (true) {}` and never returns. The `escalate` event marks entry
into the handler. -/
def ErrorHandler (violation_id : Nat) (message : String) : Outcome Unit :=
  { ret := none, events := [.escalate violation_id, .log "FATAL" message] }

/-- The full message built by `ConstraintsManager_ReportViolation`
(constraints.c line 174): `snprintf(full_msg, 256, "Violation ID 0x%02lX: %s", ...)`. -/
def reportFullMsg (constraint_id : Nat) (error_message : String) : String :=
  snprintf 256 ("Violation ID 0x" ++ fmtHex 2 constraint_id ++ ": " ++ error_message)

/-- `ConstraintsManager_ReportViolation` (constraints.c lines 172-182): logs
the violation at ERROR severity, then calls `ErrorHandler` when the id is
`CONSTRAINT_ID_SYS_CLK_RANGE` or `CONSTRAINT_ID_RAM_ACCESS_OOB`. The
`report` event marks entry into this function. -/
def ConstraintsManager_ReportViolation (constraint_id : Nat)
    (error_message : String) : Outcome Unit :=
  Outcome.bind { ret := some (), events := [.report constraint_id] } fun _ =>
  Outcome.bind (LogHandler "ERROR" (reportFullMsg constraint_id error_message)) fun _ =>
  if constraint_id = CONSTRAINT_ID_SYS_CLK_RANGE ∨
     constraint_id = CONSTRAINT_ID_RAM_ACCESS_OOB then
    ErrorHandler constraint_id "Critical constraint violation. System halted."
  else
    { ret := some (), events := [] }

/-- The failure message of the clock validator (constraints.c lines 100-102):
`snprintf(msg, 128, "Clock frequency %lu Hz is out of bounds [%lu - %lu] Hz.", ...)`. -/
def clockFailMsg (freq_hz : Nat) : String :=
  snprintf 128 ("Clock frequency " ++ toString freq_hz ++ " Hz is out of bounds [" ++
    toString SYS_CLK_MIN_HZ ++ " - " ++ toString SYS_CLK_MAX_HZ ++ "] Hz.")

/-- `ConstraintsManager_ValidateClockFrequency` (constraints.c lines 97-107). -/
def ConstraintsManager_ValidateClockFrequency (freq_hz : Nat) : Outcome Bool :=
  if freq_hz < SYS_CLK_MIN_HZ ∨ freq_hz > SYS_CLK_MAX_HZ then
    Outcome.bind
      (ConstraintsManager_ReportViolation CONSTRAINT_ID_SYS_CLK_RANGE
        (clockFailMsg freq_hz)) fun _ =>
    { ret := some false, events := [] }
  else
    { ret := some true, events := [] }

/-- The failure message of the RAM validator (constraints.c lines 118-120):
`snprintf(msg, 128, "Memory access 0x%08lX is outside RAM range [0x%08lX - 0x%08lX].", ...)`. -/
def ramFailMsg (address : Nat) : String :=
  snprintf 128 ("Memory access 0x" ++ fmtHex 8 address ++ " is outside RAM range [0x" ++
    fmtHex 8 RAM_START_ADDR ++ " - 0x" ++ fmtHex 8 RAM_END_ADDR ++ "].")

/-- `ConstraintsManager_ValidateRamAddress` (constraints.c lines 115-125). -/
def ConstraintsManager_ValidateRamAddress (address : Nat) : Outcome Bool :=
  if address < RAM_START_ADDR ∨ address > RAM_END_ADDR then
    Outcome.bind
      (ConstraintsManager_ReportViolation CONSTRAINT_ID_RAM_ACCESS_OOB
        (ramFailMsg address)) fun _ =>
    { ret := some false, events := [] }
  else
    { ret := some true, events := [] }

/-- The warning message of the resource checker's default branch
(constraints.c line 156): `snprintf(msg, 64, "Unknown resource ID 0x%02lX for check.", ...)`. -/
def unknownResourceMsg (resource_id : Nat) : String :=
  snprintf 64 ("Unknown resource ID 0x" ++ fmtHex 2 resource_id ++ " for check.")

/-- `ConstraintsManager_CheckCriticalResource` (constraints.c lines 136-161):
switch on the resource id; the two known branches log INFO and fall through
to `return true`; the default branch logs WARN and returns false. -/
def ConstraintsManager_CheckCriticalResource (resource_id : Nat) : Outcome Bool :=
  if resource_id = CONSTRAINT_ID_SENSOR_TIMEOUT then
    Outcome.bind (LogHandler "INFO" "Sensor check OK.") fun _ =>
    { ret := some true, events := [] }
  else if resource_id = CONSTRAINT_ID_COMM_BUFFER_FULL then
    Outcome.bind (LogHandler "INFO" "Communication buffer check OK.") fun _ =>
    { ret := some true, events := [] }
  else
    Outcome.bind (LogHandler "WARN" (unknownResourceMsg resource_id)) fun _ =>
    { ret := some false, events := [] }

/-- `ConstraintsManager_Init` (constraints.c lines 81-89): logs INFO,
self-tests the clock validator at `SYS_CLK_MIN_HZ + 1000`, warns if that
fails, and returns true. -/
def ConstraintsManager_Init : Outcome Bool :=
  Outcome.bind (LogHandler "INFO" "Constraints module initialized.") fun _ =>
  Outcome.bind (ConstraintsManager_ValidateClockFrequency (SYS_CLK_MIN_HZ + 1000)) fun ok =>
  Outcome.bind
    (if ok then { ret := some (), events := [] }
     else LogHandler "WARN" "Initial clock frequency might be out of range.") fun _ =>
  { ret := some true, events := [] }

/-- The ids classified fatal by `ConstraintsManager_ReportViolation`
(constraints.c lines 178-179). -/
def isFatal (id : Nat) : Prop :=
  id = CONSTRAINT_ID_SYS_CLK_RANGE ∨ id = CONSTRAINT_ID_RAM_ACCESS_OOB

instance (id : Nat) : Decidable (isFatal id) := by
  unfold isFatal; infer_instance

/-- Ids of the Violation Reporter invocations occurring in an event trace. -/
def reportedIds (es : List Event) : List Nat :=
  es.filterMap fun e =>
    match e with
    | .report i => some i
    | _ => none

/-- Messages of the WARN-severity log entries in an event trace. -/
def warnLogs (es : List Event) : List String :=
  es.filterMap fun e =>
    match e with
    | .log "WARN" m => some m
    | _ => none

/-- Cross-call state of the module: the accumulated log of events and
whether the system has halted in the Escalation Handler. The module itself
keeps no other state across calls. -/
structure SysState where
  log : List Event
  halted : Bool
deriving DecidableEq

/-- The public entry points of the module, as calls with their arguments. -/
inductive Call where
  | validateClock (freq_hz : Nat)
  | validateRam (address : Nat)
  | checkResource (resource_id : Nat)
  | reportViolation (constraint_id : Nat) (message : String)
  | moduleInit
deriving DecidableEq

/-- Per-call semantics, uniformly as a boolean-returning outcome
(`reportViolation` returns no value in C; its completion is recorded as
`true`). -/
def callEffect : Call → Outcome Bool
  | .validateClock f => ConstraintsManager_ValidateClockFrequency f
  | .validateRam a => ConstraintsManager_ValidateRamAddress a
  | .checkResource i => ConstraintsManager_CheckCriticalResource i
  | .reportViolation i m =>
      Outcome.bind (ConstraintsManager_ReportViolation i m) fun _ =>
      { ret := some true, events := [] }
  | .moduleInit => ConstraintsManager_Init

/-- One invocation of a public entry point from a given state: once halted,
no further call executes; otherwise the call's events are appended to the
log and the state becomes halted exactly when the call never returns. -/
def step (s : SysState) (c : Call) : SysState × Option Bool :=
  if s.halted then (s, none)
  else
    let o := callEffect c
    ({ log := s.log ++ o.events, halted := o.ret.isNone }, o.ret)

end Constraints

namespace Constraints

/-! Helper lemmas shared by the claim theorems. -/

/-- Closed form of the Violation Reporter on a fatal identifier. -/
theorem reportViolation_fatal (id : Nat) (msg : String) (h : isFatal id) :
    ConstraintsManager_ReportViolation id msg =
      { ret := none,
        events := [.report id, .log "ERROR" (reportFullMsg id msg), .escalate id,
                   .log "FATAL" "Critical constraint violation. System halted."] } := by
  unfold isFatal at h
  unfold ConstraintsManager_ReportViolation
  rw [if_pos h]
  rfl

/-- Closed form of the Violation Reporter on a recoverable identifier. -/
theorem reportViolation_recoverable (id : Nat) (msg : String) (h : ¬ isFatal id) :
    ConstraintsManager_ReportViolation id msg =
      { ret := some (), events := [.report id, .log "ERROR" (reportFullMsg id msg)] } := by
  unfold isFatal at h
  unfold ConstraintsManager_ReportViolation
  rw [if_neg h]
  rfl

/-- Closed form of the clock validator on an in-range frequency. -/
theorem validateClock_inRange (freq_hz : Nat)
    (h : ¬ (freq_hz < SYS_CLK_MIN_HZ ∨ freq_hz > SYS_CLK_MAX_HZ)) :
    ConstraintsManager_ValidateClockFrequency freq_hz =
      { ret := some true, events := [] } := by
  unfold ConstraintsManager_ValidateClockFrequency
  rw [if_neg h]

/-- Closed form of the clock validator on an out-of-range frequency: it
enters the Violation Reporter with id 0x01, which escalates and never
returns; the `return false` on line 104 of constraints.c is unreachable. -/
theorem validateClock_outOfRange (freq_hz : Nat)
    (h : freq_hz < SYS_CLK_MIN_HZ ∨ freq_hz > SYS_CLK_MAX_HZ) :
    ConstraintsManager_ValidateClockFrequency freq_hz =
      { ret := none,
        events := [.report CONSTRAINT_ID_SYS_CLK_RANGE,
                   .log "ERROR" (reportFullMsg CONSTRAINT_ID_SYS_CLK_RANGE (clockFailMsg freq_hz)),
                   .escalate CONSTRAINT_ID_SYS_CLK_RANGE,
                   .log "FATAL" "Critical constraint violation. System halted."] } := by
  unfold ConstraintsManager_ValidateClockFrequency
  rw [if_pos h, reportViolation_fatal _ _ (Or.inl rfl)]
  rfl

/-- Closed form of the RAM validator on an in-window address. -/
theorem validateRam_inRange (address : Nat)
    (h : ¬ (address < RAM_START_ADDR ∨ address > RAM_END_ADDR)) :
    ConstraintsManager_ValidateRamAddress address =
      { ret := some true, events := [] } := by
  unfold ConstraintsManager_ValidateRamAddress
  rw [if_neg h]

/-- Closed form of the RAM validator on an out-of-window address: it enters
the Violation Reporter with id 0x02, which escalates and never returns; the
`return false` on line 122 of constraints.c is unreachable. -/
theorem validateRam_outOfRange (address : Nat)
    (h : address < RAM_START_ADDR ∨ address > RAM_END_ADDR) :
    ConstraintsManager_ValidateRamAddress address =
      { ret := none,
        events := [.report CONSTRAINT_ID_RAM_ACCESS_OOB,
                   .log "ERROR" (reportFullMsg CONSTRAINT_ID_RAM_ACCESS_OOB (ramFailMsg address)),
                   .escalate CONSTRAINT_ID_RAM_ACCESS_OOB,
                   .log "FATAL" "Critical constraint violation. System halted."] } := by
  unfold ConstraintsManager_ValidateRamAddress
  rw [if_pos h, reportViolation_fatal _ _ (Or.inr rfl)]
  rfl

/-- Closed form of the resource checker on an unknown identifier. -/
theorem checkResource_unknown (resource_id : Nat)
    (h3 : resource_id ≠ CONSTRAINT_ID_SENSOR_TIMEOUT)
    (h4 : resource_id ≠ CONSTRAINT_ID_COMM_BUFFER_FULL) :
    ConstraintsManager_CheckCriticalResource resource_id =
      { ret := some false,
        events := [.log "WARN" (unknownResourceMsg resource_id)] } := by
  unfold ConstraintsManager_CheckCriticalResource
  rw [if_neg h3, if_neg h4]
  rfl

/-- The initialization routine evaluated: the self-test value
`SYS_CLK_MIN_HZ + 1000` is in range, so only the INFO line is logged and
`true` is returned. -/
theorem init_spec :
    ConstraintsManager_Init =
      { ret := some true,
        events := [.log "INFO" "Constraints module initialized."] } := by
  decide

end Constraints

namespace Constraints

/-- C1 (counterexample): at `freq_hz = 0`, which is strictly below the
minimum, `ConstraintsManager_ValidateClockFrequency` does not return `false`
as the claim states: the fatal escalation inside the reporting path never
returns, so the call has no return value at all. -/
theorem c1_clock_validator_counterexample :
    (0 < SYS_CLK_MIN_HZ ∨ 0 > SYS_CLK_MAX_HZ) ∧
    (ConstraintsManager_ValidateClockFrequency 0).ret ≠ some false ∧
    (ConstraintsManager_ValidateClockFrequency 0).ret = none := by
  decide

/-- C1 (amended): for every `freq_hz` with
`SYS_CLK_MIN_HZ ≤ freq_hz ≤ SYS_CLK_MAX_HZ` the clock validator returns
`true` with no Violation Reporter call; for every `freq_hz` strictly outside
that range it triggers exactly one Violation Reporter call with identifier
`CONSTRAINT_ID_SYS_CLK_RANGE` (0x01), and — because that identifier is fatal
— the call never returns (the `return false` is unreachable). -/
theorem c1_clock_validator (freq_hz : Nat) :
    (SYS_CLK_MIN_HZ ≤ freq_hz ∧ freq_hz ≤ SYS_CLK_MAX_HZ →
      ConstraintsManager_ValidateClockFrequency freq_hz =
        { ret := some true, events := [] }) ∧
    (freq_hz < SYS_CLK_MIN_HZ ∨ freq_hz > SYS_CLK_MAX_HZ →
      reportedIds (ConstraintsManager_ValidateClockFrequency freq_hz).events =
        [CONSTRAINT_ID_SYS_CLK_RANGE] ∧
      (ConstraintsManager_ValidateClockFrequency freq_hz).ret = none) := by
  constructor
  · intro h
    exact validateClock_inRange freq_hz (by omega)
  · intro h
    rw [validateClock_outOfRange freq_hz h]
    exact ⟨rfl, rfl⟩

/-- C1 (witness): the amended theorem instantiated at the in-range boundary
`80000000` and at the out-of-range value `79999999`. -/
theorem c1_clock_validator_witness :
    ((SYS_CLK_MIN_HZ ≤ 80000000 ∧ 80000000 ≤ SYS_CLK_MAX_HZ) ∧
      ConstraintsManager_ValidateClockFrequency 80000000 =
        { ret := some true, events := [] }) ∧
    ((79999999 < SYS_CLK_MIN_HZ ∨ 79999999 > SYS_CLK_MAX_HZ) ∧
      reportedIds (ConstraintsManager_ValidateClockFrequency 79999999).events =
        [CONSTRAINT_ID_SYS_CLK_RANGE] ∧
      (ConstraintsManager_ValidateClockFrequency 79999999).ret = none) :=
  ⟨⟨by decide, (c1_clock_validator 80000000).1 (by decide)⟩,
   ⟨by decide, (c1_clock_validator 79999999).2 (by decide)⟩⟩

/-- C2 (counterexample): at `address = 0x1FFFFFFF`, one below the RAM
window, `ConstraintsManager_ValidateRamAddress` does not return `false` as
the claim states: the fatal escalation inside the reporting path never
returns, so the call has no return value at all. -/
theorem c2_ram_validator_counterexample :
    (0x1FFFFFFF < RAM_START_ADDR ∨ 0x1FFFFFFF > RAM_END_ADDR) ∧
    (ConstraintsManager_ValidateRamAddress 0x1FFFFFFF).ret ≠ some false ∧
    (ConstraintsManager_ValidateRamAddress 0x1FFFFFFF).ret = none := by
  decide

/-- C2 (amended): for every `address` with
`RAM_START_ADDR ≤ address ≤ RAM_END_ADDR` (0x20000000 to 0x2001FFFF, both
ends inclusive) the RAM validator returns `true` with no Violation Reporter
call; for every `address` outside the window it triggers exactly one
Violation Reporter call with identifier `CONSTRAINT_ID_RAM_ACCESS_OOB`
(0x02), and — because that identifier is fatal — the call never returns. -/
theorem c2_ram_validator (address : Nat) :
    (RAM_START_ADDR ≤ address ∧ address ≤ RAM_END_ADDR →
      ConstraintsManager_ValidateRamAddress address =
        { ret := some true, events := [] }) ∧
    (address < RAM_START_ADDR ∨ address > RAM_END_ADDR →
      reportedIds (ConstraintsManager_ValidateRamAddress address).events =
        [CONSTRAINT_ID_RAM_ACCESS_OOB] ∧
      (ConstraintsManager_ValidateRamAddress address).ret = none) := by
  constructor
  · intro h
    exact validateRam_inRange address (by omega)
  · intro h
    rw [validateRam_outOfRange address h]
    exact ⟨rfl, rfl⟩

/-- C2 (witness): the amended theorem instantiated at the inclusive
boundaries `0x20000000` and (via the failure half) at `0x20020000`, one
above the window. -/
theorem c2_ram_validator_witness :
    ((RAM_START_ADDR ≤ 0x2001FFFF ∧ 0x2001FFFF ≤ RAM_END_ADDR) ∧
      ConstraintsManager_ValidateRamAddress 0x2001FFFF =
        { ret := some true, events := [] }) ∧
    ((0x20020000 < RAM_START_ADDR ∨ 0x20020000 > RAM_END_ADDR) ∧
      reportedIds (ConstraintsManager_ValidateRamAddress 0x20020000).events =
        [CONSTRAINT_ID_RAM_ACCESS_OOB] ∧
      (ConstraintsManager_ValidateRamAddress 0x20020000).ret = none) :=
  ⟨⟨by decide, (c2_ram_validator 0x2001FFFF).1 (by decide)⟩,
   ⟨by decide, (c2_ram_validator 0x20020000).2 (by decide)⟩⟩

end Constraints

namespace Constraints

/-- C3: for every identifier and message, `ConstraintsManager_ReportViolation`
first unconditionally emits exactly one ERROR-severity log entry whose text
renders the identifier in the fixed `0x%02lX` format; then, if the
identifier is fatal (0x01 or 0x02), it enters the Escalation Handler and the
call never returns, and for every other identifier it performs nothing
further and returns normally. -/
theorem c3_report_violation_contract (id : Nat) (msg : String) :
    (isFatal id →
      ConstraintsManager_ReportViolation id msg =
        { ret := none,
          events := [.report id, .log "ERROR" (reportFullMsg id msg), .escalate id,
                     .log "FATAL" "Critical constraint violation. System halted."] }) ∧
    (¬ isFatal id →
      ConstraintsManager_ReportViolation id msg =
        { ret := some (),
          events := [.report id, .log "ERROR" (reportFullMsg id msg)] }) :=
  ⟨reportViolation_fatal id msg, reportViolation_recoverable id msg⟩

/-- C3 (witness): the contract instantiated at the fatal identifier 0x01 and
at the recoverable identifier 0x03. -/
theorem c3_report_violation_contract_witness :
    (isFatal CONSTRAINT_ID_SYS_CLK_RANGE ∧
      ConstraintsManager_ReportViolation CONSTRAINT_ID_SYS_CLK_RANGE "m" =
        { ret := none,
          events := [.report CONSTRAINT_ID_SYS_CLK_RANGE,
                     .log "ERROR" (reportFullMsg CONSTRAINT_ID_SYS_CLK_RANGE "m"),
                     .escalate CONSTRAINT_ID_SYS_CLK_RANGE,
                     .log "FATAL" "Critical constraint violation. System halted."] }) ∧
    (¬ isFatal CONSTRAINT_ID_SENSOR_TIMEOUT ∧
      ConstraintsManager_ReportViolation CONSTRAINT_ID_SENSOR_TIMEOUT "m" =
        { ret := some (),
          events := [.report CONSTRAINT_ID_SENSOR_TIMEOUT,
                     .log "ERROR" (reportFullMsg CONSTRAINT_ID_SENSOR_TIMEOUT "m")] }) :=
  ⟨⟨by decide, (c3_report_violation_contract CONSTRAINT_ID_SYS_CLK_RANGE "m").1 (by decide)⟩,
   ⟨by decide, (c3_report_violation_contract CONSTRAINT_ID_SENSOR_TIMEOUT "m").2 (by decide)⟩⟩

/-- C4: for every `resource_id` that is neither 0x03 (sensor-timeout) nor
0x04 (comm-buffer-full), `ConstraintsManager_CheckCriticalResource` returns
unhealthy (`false`), logs exactly one WARN line, and performs no fatal
escalation. -/
theorem c4_unknown_resource_unhealthy (resource_id : Nat)
    (h3 : resource_id ≠ CONSTRAINT_ID_SENSOR_TIMEOUT)
    (h4 : resource_id ≠ CONSTRAINT_ID_COMM_BUFFER_FULL) :
    (ConstraintsManager_CheckCriticalResource resource_id).ret = some false ∧
    warnLogs (ConstraintsManager_CheckCriticalResource resource_id).events =
      [unknownResourceMsg resource_id] ∧
    ∀ fid, Event.escalate fid ∉
      (ConstraintsManager_CheckCriticalResource resource_id).events := by
  rw [checkResource_unknown resource_id h3 h4]
  refine ⟨rfl, rfl, ?_⟩
  intro fid hmem
  simp at hmem

/-- C4 (witness): the theorem instantiated at the unknown identifier 0xFF. -/
theorem c4_unknown_resource_unhealthy_witness :
    ((255 : Nat) ≠ CONSTRAINT_ID_SENSOR_TIMEOUT ∧
     (255 : Nat) ≠ CONSTRAINT_ID_COMM_BUFFER_FULL) ∧
    (ConstraintsManager_CheckCriticalResource 255).ret = some false ∧
    warnLogs (ConstraintsManager_CheckCriticalResource 255).events =
      [unknownResourceMsg 255] ∧
    ∀ fid, Event.escalate fid ∉
      (ConstraintsManager_CheckCriticalResource 255).events :=
  ⟨⟨by decide, by decide⟩, c4_unknown_resource_unhealthy 255 (by decide) (by decide)⟩

/-- C5 (counterexample): at `resource_id = 0xFF` the Resource Health Checker
produces a failing (`false`) outcome and yet never invokes the Violation
Reporter — it logs a WARN line independently, contradicting the claim that
every failure path passes through the reporter. -/
theorem c5_single_funnel_counterexample :
    (ConstraintsManager_CheckCriticalResource 255).ret = some false ∧
    reportedIds (ConstraintsManager_CheckCriticalResource 255).events = [] ∧
    warnLogs (ConstraintsManager_CheckCriticalResource 255).events =
      ["Unknown resource ID 0xFF for check."] := by
  decide

/-- C5 (amended): the two validators' failure paths do pass through the
Violation Reporter (exactly one invocation, with the matching identifier),
but the Resource Health Checker's only failing path — the unknown-identifier
branch — does not: it logs a WARN line directly and invokes the reporter
zero times. -/
theorem c5_single_funnel (freq_hz address resource_id : Nat) :
    (freq_hz < SYS_CLK_MIN_HZ ∨ freq_hz > SYS_CLK_MAX_HZ →
      reportedIds (ConstraintsManager_ValidateClockFrequency freq_hz).events =
        [CONSTRAINT_ID_SYS_CLK_RANGE]) ∧
    (address < RAM_START_ADDR ∨ address > RAM_END_ADDR →
      reportedIds (ConstraintsManager_ValidateRamAddress address).events =
        [CONSTRAINT_ID_RAM_ACCESS_OOB]) ∧
    ((ConstraintsManager_CheckCriticalResource resource_id).ret = some false →
      reportedIds (ConstraintsManager_CheckCriticalResource resource_id).events = [] ∧
      warnLogs (ConstraintsManager_CheckCriticalResource resource_id).events =
        [unknownResourceMsg resource_id]) := by
  refine ⟨?_, ?_, ?_⟩
  · intro h
    rw [validateClock_outOfRange freq_hz h]
    rfl
  · intro h
    rw [validateRam_outOfRange address h]
    rfl
  · intro h
    by_cases h3 : resource_id = CONSTRAINT_ID_SENSOR_TIMEOUT
    · subst h3
      rw [(by decide : ConstraintsManager_CheckCriticalResource CONSTRAINT_ID_SENSOR_TIMEOUT =
        { ret := some true, events := [.log "INFO" "Sensor check OK."] })] at h
      simp at h
    · by_cases h4 : resource_id = CONSTRAINT_ID_COMM_BUFFER_FULL
      · subst h4
        rw [(by decide : ConstraintsManager_CheckCriticalResource CONSTRAINT_ID_COMM_BUFFER_FULL =
          { ret := some true, events := [.log "INFO" "Communication buffer check OK."] })] at h
        simp at h
      · rw [checkResource_unknown resource_id h3 h4]
        exact ⟨rfl, rfl⟩

/-- C5 (witness): the amended theorem instantiated at out-of-range inputs
`freq_hz = 0`, `address = 0`, and at the unknown resource id 0xFF. -/
theorem c5_single_funnel_witness :
    ((0 < SYS_CLK_MIN_HZ ∨ 0 > SYS_CLK_MAX_HZ) ∧
      reportedIds (ConstraintsManager_ValidateClockFrequency 0).events =
        [CONSTRAINT_ID_SYS_CLK_RANGE]) ∧
    ((0 < RAM_START_ADDR ∨ 0 > RAM_END_ADDR) ∧
      reportedIds (ConstraintsManager_ValidateRamAddress 0).events =
        [CONSTRAINT_ID_RAM_ACCESS_OOB]) ∧
    ((ConstraintsManager_CheckCriticalResource 254).ret = some false ∧
      reportedIds (ConstraintsManager_CheckCriticalResource 254).events = [] ∧
      warnLogs (ConstraintsManager_CheckCriticalResource 254).events =
        [unknownResourceMsg 254]) :=
  ⟨⟨by decide, (c5_single_funnel 0 0 254).1 (by decide)⟩,
   ⟨by decide, (c5_single_funnel 0 0 254).2.1 (by decide)⟩,
   by decide, (c5_single_funnel 0 0 254).2.2 (by decide)⟩

/-- C6: for each currently-defined resource kind — sensor-timeout (0x03) and
comm-buffer-full (0x04) — the Resource Health Checker returns healthy
(`true`), with no reporter call and no escalation (the embedded health query
detects no problem, so the default-healthy `return true` is reached). -/
theorem c6_known_resources_healthy (resource_id : Nat)
    (h : resource_id = CONSTRAINT_ID_SENSOR_TIMEOUT ∨
         resource_id = CONSTRAINT_ID_COMM_BUFFER_FULL) :
    (ConstraintsManager_CheckCriticalResource resource_id).ret = some true ∧
    reportedIds (ConstraintsManager_CheckCriticalResource resource_id).events = [] ∧
    ∀ fid, Event.escalate fid ∉
      (ConstraintsManager_CheckCriticalResource resource_id).events := by
  rcases h with h | h <;> subst h
  · rw [(by decide : ConstraintsManager_CheckCriticalResource CONSTRAINT_ID_SENSOR_TIMEOUT =
      { ret := some true, events := [.log "INFO" "Sensor check OK."] })]
    refine ⟨rfl, rfl, ?_⟩
    intro fid hmem
    simp at hmem
  · rw [(by decide : ConstraintsManager_CheckCriticalResource CONSTRAINT_ID_COMM_BUFFER_FULL =
      { ret := some true, events := [.log "INFO" "Communication buffer check OK."] })]
    refine ⟨rfl, rfl, ?_⟩
    intro fid hmem
    simp at hmem

/-- C6 (witness): the theorem instantiated at the sensor-timeout id 0x03. -/
theorem c6_known_resources_healthy_witness :
    ((3 : Nat) = CONSTRAINT_ID_SENSOR_TIMEOUT ∨
     (3 : Nat) = CONSTRAINT_ID_COMM_BUFFER_FULL) ∧
    (ConstraintsManager_CheckCriticalResource 3).ret = some true ∧
    reportedIds (ConstraintsManager_CheckCriticalResource 3).events = [] ∧
    ∀ fid, Event.escalate fid ∉
      (ConstraintsManager_CheckCriticalResource 3).events :=
  ⟨by decide, c6_known_resources_healthy 3 (by decide)⟩

end Constraints

namespace Constraints

/-- C7: for every input, each validator terminates and either returns a
boolean to its caller, or — when it does not return — the non-return
originates inside the reporting/escalation path (the trace contains an entry
into the Escalation Handler), never in the validator's own code. -/
theorem c7_validators_no_self_halt (freq_hz address : Nat) :
    ((∃ b, (ConstraintsManager_ValidateClockFrequency freq_hz).ret = some b) ∨
      ((ConstraintsManager_ValidateClockFrequency freq_hz).ret = none ∧
       Event.escalate CONSTRAINT_ID_SYS_CLK_RANGE ∈
         (ConstraintsManager_ValidateClockFrequency freq_hz).events)) ∧
    ((∃ b, (ConstraintsManager_ValidateRamAddress address).ret = some b) ∨
      ((ConstraintsManager_ValidateRamAddress address).ret = none ∧
       Event.escalate CONSTRAINT_ID_RAM_ACCESS_OOB ∈
         (ConstraintsManager_ValidateRamAddress address).events)) := by
  constructor
  · by_cases h : freq_hz < SYS_CLK_MIN_HZ ∨ freq_hz > SYS_CLK_MAX_HZ
    · right
      rw [validateClock_outOfRange freq_hz h]
      exact ⟨rfl, by simp⟩
    · left
      rw [validateClock_inRange freq_hz h]
      exact ⟨true, rfl⟩
  · by_cases h : address < RAM_START_ADDR ∨ address > RAM_END_ADDR
    · right
      rw [validateRam_outOfRange address h]
      exact ⟨rfl, by simp⟩
    · left
      rw [validateRam_inRange address h]
      exact ⟨true, rfl⟩

/-- C8: validation is stateless, deterministic and idempotent: from any two
non-halted states, the same call yields the same result; the result is a
function of the call alone; the only cross-call effect is appending to the
log; and re-invoking the same call after a returning invocation yields the
same result again. -/
theorem c8_validation_stateless (s1 s2 : SysState) (c : Call)
    (h1 : s1.halted = false) (h2 : s2.halted = false) :
    (step s1 c).2 = (step s2 c).2 ∧
    (step s1 c).2 = (callEffect c).ret ∧
    (step s1 c).1.log = s1.log ++ (callEffect c).events ∧
    ((step s1 c).1.halted = false → (step (step s1 c).1 c).2 = (step s1 c).2) := by
  refine ⟨?_, ?_, ?_, ?_⟩
  · simp [step, h1, h2]
  · simp [step, h1]
  · simp [step, h1]
  · intro h
    have hh : (callEffect c).ret.isNone = false := by
      rw [← h]
      simp [step, h1]
    simp [step, h1, hh]

/-- C8 (witness): the theorem instantiated at two distinct non-halted states
(one with a non-empty accumulated log) and the call
`checkResource CONSTRAINT_ID_SENSOR_TIMEOUT`, with every hypothesis, inner
ones included, discharged. -/
theorem c8_validation_stateless_witness :
    (SysState.mk [] false).halted = false ∧
    (SysState.mk [Event.log "INFO" "x"] false).halted = false ∧
    (step ⟨[], false⟩ (.checkResource 3)).2 =
      (step ⟨[Event.log "INFO" "x"], false⟩ (.checkResource 3)).2 ∧
    (step ⟨[], false⟩ (.checkResource 3)).2 = (callEffect (.checkResource 3)).ret ∧
    (step ⟨[], false⟩ (.checkResource 3)).1.log =
      [] ++ (callEffect (.checkResource 3)).events ∧
    (step ⟨[], false⟩ (.checkResource 3)).1.halted = false ∧
    (step (step ⟨[], false⟩ (.checkResource 3)).1 (.checkResource 3)).2 =
      (step ⟨[], false⟩ (.checkResource 3)).2 :=
  ⟨rfl, rfl,
   (c8_validation_stateless ⟨[], false⟩ ⟨[Event.log "INFO" "x"], false⟩
     (.checkResource 3) rfl rfl).1,
   (c8_validation_stateless ⟨[], false⟩ ⟨[Event.log "INFO" "x"], false⟩
     (.checkResource 3) rfl rfl).2.1,
   (c8_validation_stateless ⟨[], false⟩ ⟨[Event.log "INFO" "x"], false⟩
     (.checkResource 3) rfl rfl).2.2.1,
   by decide,
   (c8_validation_stateless ⟨[], false⟩ ⟨[Event.log "INFO" "x"], false⟩
     (.checkResource 3) rfl rfl).2.2.2 (by decide)⟩

end Constraints

namespace Constraints

/-- C9: the Escalation Handler first logs at the highest severity (FATAL)
and never returns; once the module is halted no call executes any further
logic (the Halted state is absorbing, with no transition back); and the only
way a non-halted state becomes halted is through a call whose trace enters
the Escalation Handler with a fatal identifier. -/
theorem c9_escalation_one_way (id : Nat) (msg : String) (s : SysState) (c : Call) :
    ((ErrorHandler id msg).ret = none ∧
     (ErrorHandler id msg).events = [.escalate id, .log "FATAL" msg]) ∧
    (s.halted = true → step s c = (s, none)) ∧
    (s.halted = false → (step s c).1.halted = true →
      ∃ fid, isFatal fid ∧ Event.escalate fid ∈ (step s c).1.log) := by
  refine ⟨⟨rfl, rfl⟩, ?_, ?_⟩
  · intro h
    simp [step, h]
  · intro h hh
    have hnone : (callEffect c).ret = none := by
      have : (callEffect c).ret.isNone = true := by
        rw [← hh]
        simp [step, h]
      exact Option.isNone_iff_eq_none.mp this
    have hlog : (step s c).1.log = s.log ++ (callEffect c).events := by
      simp [step, h]
    rw [hlog]
    have hev : ∃ fid, isFatal fid ∧ Event.escalate fid ∈ (callEffect c).events := by
      cases c with
      | validateClock f =>
        by_cases hr : f < SYS_CLK_MIN_HZ ∨ f > SYS_CLK_MAX_HZ
        · refine ⟨CONSTRAINT_ID_SYS_CLK_RANGE, Or.inl rfl, ?_⟩
          show Event.escalate _ ∈ (ConstraintsManager_ValidateClockFrequency f).events
          rw [validateClock_outOfRange f hr]
          simp
        · exfalso
          rw [show callEffect (Call.validateClock f) =
                ConstraintsManager_ValidateClockFrequency f from rfl,
              validateClock_inRange f hr] at hnone
          simp at hnone
      | validateRam a =>
        by_cases hr : a < RAM_START_ADDR ∨ a > RAM_END_ADDR
        · refine ⟨CONSTRAINT_ID_RAM_ACCESS_OOB, Or.inr rfl, ?_⟩
          show Event.escalate _ ∈ (ConstraintsManager_ValidateRamAddress a).events
          rw [validateRam_outOfRange a hr]
          simp
        · exfalso
          rw [show callEffect (Call.validateRam a) =
                ConstraintsManager_ValidateRamAddress a from rfl,
              validateRam_inRange a hr] at hnone
          simp at hnone
      | checkResource i =>
        exfalso
        have hne : (ConstraintsManager_CheckCriticalResource i).ret ≠ none := by
          by_cases h3 : i = CONSTRAINT_ID_SENSOR_TIMEOUT
          · subst h3
            rw [(by decide : ConstraintsManager_CheckCriticalResource
                  CONSTRAINT_ID_SENSOR_TIMEOUT =
                { ret := some true, events := [.log "INFO" "Sensor check OK."] })]
            simp
          · by_cases h4 : i = CONSTRAINT_ID_COMM_BUFFER_FULL
            · subst h4
              rw [(by decide : ConstraintsManager_CheckCriticalResource
                    CONSTRAINT_ID_COMM_BUFFER_FULL =
                  { ret := some true,
                    events := [.log "INFO" "Communication buffer check OK."] })]
              simp
            · rw [checkResource_unknown i h3 h4]
              simp
        exact hne hnone
      | reportViolation i m =>
        by_cases hf : isFatal i
        · refine ⟨i, hf, ?_⟩
          show Event.escalate i ∈
            (Outcome.bind (ConstraintsManager_ReportViolation i m) fun _ =>
              ({ ret := some true, events := [] } : Outcome Bool)).events
          rw [reportViolation_fatal i m hf]
          simp [Outcome.bind]
        · exfalso
          rw [show callEffect (Call.reportViolation i m) =
                Outcome.bind (ConstraintsManager_ReportViolation i m) fun _ =>
                  ({ ret := some true, events := [] } : Outcome Bool) from rfl,
              reportViolation_recoverable i m hf] at hnone
          simp [Outcome.bind] at hnone
      | moduleInit =>
        exfalso
        rw [show callEffect Call.moduleInit = ConstraintsManager_Init from rfl,
            init_spec] at hnone
        simp at hnone
    rcases hev with ⟨fid, hfid, hmem⟩
    exact ⟨fid, hfid, List.mem_append.mpr (Or.inr hmem)⟩

/-- C9 (witness): the theorem instantiated at identifier 5 and message "m";
the absorbing-halt conjunct at an already-halted state, and the
fatal-origin conjunct at the non-halted state with the halting call
`validateClock 0`. -/
theorem c9_escalation_one_way_witness :
    ((ErrorHandler 5 "m").ret = none ∧
     (ErrorHandler 5 "m").events = [.escalate 5, .log "FATAL" "m"]) ∧
    ((SysState.mk [] true).halted = true ∧
      step ⟨[], true⟩ (.validateClock 0) = (⟨[], true⟩, none)) ∧
    ((SysState.mk [] false).halted = false ∧
      (step ⟨[], false⟩ (.validateClock 0)).1.halted = true ∧
      ∃ fid, isFatal fid ∧
        Event.escalate fid ∈ (step ⟨[], false⟩ (.validateClock 0)).1.log) :=
  ⟨(c9_escalation_one_way 5 "m" ⟨[], true⟩ (.validateClock 0)).1,
   ⟨rfl, (c9_escalation_one_way 5 "m" ⟨[], true⟩ (.validateClock 0)).2.1 rfl⟩,
   ⟨rfl, by decide,
    (c9_escalation_one_way 5 "m" ⟨[], false⟩ (.validateClock 0)).2.2 rfl (by decide)⟩⟩

/-- C10: `ConstraintsManager_Init` returns `true`: the self-test value
`SYS_CLK_MIN_HZ + 1000` lies inside the clock bounds, so the WARN branch is
unreachable — no WARN line is ever logged — and initialization reports
success unconditionally. -/
theorem c10_init_returns_true :
    ConstraintsManager_Init.ret = some true ∧
    ¬ (SYS_CLK_MIN_HZ + 1000 < SYS_CLK_MIN_HZ ∨
       SYS_CLK_MIN_HZ + 1000 > SYS_CLK_MAX_HZ) ∧
    warnLogs ConstraintsManager_Init.events = [] := by
  decide

end Constraints
